import Mathlib

/-!
Shallow embedding of the relationship-derivation engine of the mini_lively
backend (`backend/app`): the relationship-type registry, the relationship
calculator, the invitation state machine and the acceptance/derivation
workflow.  The database session is modelled by explicit state passing over
lists of records; `datetime.utcnow()` is modelled by an explicit `now : Nat`
parameter; Python functions that can raise are modelled with `Except String`.
-/

namespace MiniLively

/-- Python `str.lower` (the repo applies it to ASCII slugs and emails). -/
def pyLower (s : String) : String := ⟨s.data.map Char.toLower⟩

/-- Python `str.strip` (no argument: strip leading and trailing whitespace). -/
def pyStrip (s : String) : String :=
  ⟨((s.data.dropWhile Char.isWhitespace).reverse.dropWhile Char.isWhitespace).reverse⟩

/-- Model of `app.models.user_invitation.InvitationStatus` (Python `enum.Enum`). -/
inductive InvitationStatus where
  | pending
  | accepted
  | declined
  | expired
  | cancelled
deriving DecidableEq, Repr

/-- Model of `app.models.relationship_type.RelationshipType` (the columns the engine
reads).  `calculation_rules` is a JSON object column, modelled as an
association list from rule keys to relationship names; a SQL `NULL` rules
column behaves exactly like the empty object for every lookup performed by
the engine, so both are modelled by `[]`.  Timestamp columns are omitted:
no embedded function reads them. -/
structure RelationshipType where
  name : String
  display_name : String
  description : Option String := none
  is_active : Bool := true
  sort_order : Nat := 0
  calculation_rules : List (String × String) := []
  is_reciprocal : Bool := false
  generation_offset : Int := 0
deriving DecidableEq, Repr

/-- Model of `app.models.usertomember.UserToMember` (the columns the engine reads).
The relationship-label column is named `relation`.  Timestamp columns and
`id` are omitted: no embedded function reads them. -/
structure UserToMember where
  user_id : Nat
  member_id : Nat
  relation : String
  is_shareable : Bool := true
  is_manager : Bool := true
  created_by_user_id : Nat
  invitation_id : Option Nat := none
  relationship_notes : Option String := none
  is_primary : Bool := false
  is_active : Bool := true
  is_visible : Bool := true
deriving DecidableEq, Repr

/-- Outcome of Python `json.loads` applied to the text stored in
`UserInvitation.specific_member_ids`.  The engine never looks at the raw
text other than through `json.loads` and Python truthiness, so the stored
non-`NULL` text is modelled by its parse outcome:
* `jlist ids` — the text is a JSON array of member ids;
* `jother truthy` — the text parses as JSON but not as a list (for example
  `"5"`, truthiness `true`, or `"0"`, truthiness `false`);
* `jerror` — `json.loads` raises `JSONDecodeError` on the text. -/
inductive ParsedJson where
  | jlist (ids : List Nat)
  | jother (truthy : Bool)
  | jerror
deriving DecidableEq, Repr

/-- Model of `app.models.user_invitation.UserInvitation` (the columns the engine
reads).  `specific_member_ids` is a nullable text column; `none` models SQL
`NULL` (or the empty string, which the code treats identically through
Python truthiness), `some p` models non-empty text with parse outcome `p`.
Timestamps other than `expires_at`/`responded_at` are omitted. -/
structure UserInvitation where
  id : Nat
  inviter_user_id : Nat
  invitee_email : String
  invitee_user_id : Option Nat := none
  invitation_token : String
  status : InvitationStatus := .pending
  intended_relationship : Option String := none
  share_all_members : Bool := true
  specific_member_ids : Option ParsedJson := none
  expires_at : Nat
  responded_at : Option Nat := none
deriving DecidableEq, Repr

/-- Model of `app.models.user.User` (the columns the engine reads). -/
structure User where
  id : Nat
  email : String
deriving DecidableEq, Repr

/-- The database session state: one list per table the engine touches.
`members` holds only the ids of the `members` table rows, which is all the
embedded code paths inspect before they stop (see `get_invitation_preview`). -/
structure DB where
  relationship_types : List RelationshipType := []
  users : List User := []
  members : List Nat := []
  usertomember : List UserToMember := []
  invitations : List UserInvitation := []
deriving Repr

/-! ## Relationship Type Registry (`app/crud/relationship_type.py`) -/

/-- Model of `get_relationship_type_by_name`: first row whose stored `name` equals the
lowercased, stripped probe name and whose `is_active` flag is set.  Only the
probe is normalised; the stored name is compared verbatim. -/
def get_relationship_type_by_name (db : List RelationshipType) (name : String) :
    Option RelationshipType :=
  db.find? (fun rt => rt.name == pyStrip (pyLower name) && rt.is_active)

/-- Model of `RelationshipType.get_default_relationship_types`: the 12 canonical
seed rows.  `is_active` is not in the seed dicts; the column default `True`
applies on insert. -/
def get_default_relationship_types : List RelationshipType :=
  [ { name := "parent", display_name := "Parent",
      description := some "Biological or adoptive parent",
      generation_offset := -1, is_reciprocal := false,
      calculation_rules :=
        [("opposite", "child"), ("spouse_relation", "step_parent"),
         ("sibling_relation", "aunt_uncle"), ("parent_relation", "grandparent")],
      sort_order := 1 },
    { name := "child", display_name := "Child",
      description := some "Biological or adoptive child",
      generation_offset := 1, is_reciprocal := false,
      calculation_rules :=
        [("opposite", "parent"), ("spouse_relation", "step_child"),
         ("sibling_relation", "niece_nephew"), ("child_relation", "grandchild")],
      sort_order := 2 },
    { name := "spouse", display_name := "Spouse",
      description := some "Married partner",
      generation_offset := 0, is_reciprocal := true,
      calculation_rules :=
        [("opposite", "spouse"), ("parent_relation", "parent_in_law"),
         ("child_relation", "step_child"), ("sibling_relation", "sibling_in_law")],
      sort_order := 3 },
    { name := "sibling", display_name := "Sibling",
      description := some "Brother or sister",
      generation_offset := 0, is_reciprocal := true,
      calculation_rules :=
        [("opposite", "sibling"), ("parent_relation", "aunt_uncle"),
         ("child_relation", "niece_nephew"), ("spouse_relation", "sibling_in_law")],
      sort_order := 4 },
    { name := "grandparent", display_name := "Grandparent",
      description := some "Parent's parent",
      generation_offset := -2, is_reciprocal := false,
      calculation_rules :=
        [("opposite", "grandchild"), ("spouse_relation", "step_grandparent"),
         ("sibling_relation", "great_aunt_uncle")],
      sort_order := 5 },
    { name := "grandchild", display_name := "Grandchild",
      description := some "Child's child",
      generation_offset := 2, is_reciprocal := false,
      calculation_rules :=
        [("opposite", "grandparent"), ("spouse_relation", "step_grandchild")],
      sort_order := 6 },
    { name := "step_parent", display_name := "Step Parent",
      description := some "Spouse's child from previous relationship",
      generation_offset := -1, is_reciprocal := false,
      calculation_rules := [("opposite", "step_child")],
      sort_order := 7 },
    { name := "step_child", display_name := "Step Child",
      description := some "Spouse's child from previous relationship",
      generation_offset := 1, is_reciprocal := false,
      calculation_rules := [("opposite", "step_parent")],
      sort_order := 8 },
    { name := "aunt_uncle", display_name := "Aunt/Uncle",
      description := some "Parent's sibling",
      generation_offset := -1, is_reciprocal := false,
      calculation_rules :=
        [("opposite", "niece_nephew"), ("spouse_relation", "aunt_uncle_in_law")],
      sort_order := 9 },
    { name := "niece_nephew", display_name := "Niece/Nephew",
      description := some "Sibling's child",
      generation_offset := 1, is_reciprocal := false,
      calculation_rules := [("opposite", "aunt_uncle")],
      sort_order := 10 },
    { name := "guardian", display_name := "Guardian",
      description := some "Legal guardian or caregiver",
      generation_offset := -1, is_reciprocal := false,
      calculation_rules := [("opposite", "ward")],
      sort_order := 11 },
    { name := "ward", display_name := "Ward",
      description := some "Person under guardianship",
      generation_offset := 1, is_reciprocal := false,
      calculation_rules := [("opposite", "guardian")],
      sort_order := 12 } ]

/-- One iteration of the loop body of `seed_default_relationship_types`:
insert the seed row unless `get_relationship_type_by_name` finds it.  Rows
added earlier in the same run are part of the session, modelled by checking
against the accumulated table (the 12 canonical names are pairwise distinct,
so this choice is observationally irrelevant). -/
def seed_step (acc : List RelationshipType × List RelationshipType)
    (td : RelationshipType) : List RelationshipType × List RelationshipType :=
  match get_relationship_type_by_name acc.1 td.name with
  | some _ => acc
  | none => (acc.1 ++ [td], acc.2 ++ [td])

/-- Model of `seed_default_relationship_types`: returns the table after seeding and
the list of created rows. -/
def seed_default_relationship_types (db : List RelationshipType) :
    List RelationshipType × List RelationshipType :=
  get_default_relationship_types.foldl seed_step (db, [])

/-! ## Relationship Calculator (`app/services/relationship_calculator.py`) -/

/-- Model of `RelationshipCalculator.get_relationship_rules` (the per-instance memo
cache is behaviourally transparent for a fixed table and is not modelled):
the `calculation_rules` of the first active type with exactly the given name
(no normalisation on this path), or the empty rule map. -/
def get_relationship_rules (db : List RelationshipType) (relationship_name : String) :
    List (String × String) :=
  match db.find? (fun rt => rt.name == relationship_name && rt.is_active) with
  | some rt => rt.calculation_rules
  | none => []

/-- The literal dict of `RelationshipCalculator._apply_fallback_rules`. -/
def fallback_patterns : List ((String × String) × String) :=
  [ (("parent", "spouse"), "step_parent"),
    (("parent", "sibling"), "aunt_uncle"),
    (("parent", "parent"), "grandparent"),
    (("child", "spouse"), "step_child"),
    (("child", "sibling"), "niece_nephew"),
    (("child", "child"), "grandchild"),
    (("spouse", "child"), "step_child"),
    (("spouse", "parent"), "parent_in_law"),
    (("spouse", "sibling"), "sibling_in_law"),
    (("sibling", "spouse"), "sibling_in_law"),
    (("sibling", "child"), "niece_nephew"),
    (("sibling", "parent"), "aunt_uncle"),
    (("grandparent", "spouse"), "step_grandparent"),
    (("grandchild", "spouse"), "step_grandchild") ]

/-- Model of `RelationshipCalculator._apply_fallback_rules`: `dict.get` on the
fallback table. -/
def apply_fallback_rules (inviter_member_rel inviter_invitee_rel : String) :
    Option String :=
  fallback_patterns.lookup (inviter_member_rel, inviter_invitee_rel)

/-- Model of `RelationshipCalculator.calculate_derived_relationship`. -/
def calculate_derived_relationship (db : List RelationshipType)
    (inviter_to_member_relationship inviter_to_invitee_relationship : String) :
    Option String :=
  let member_rules := get_relationship_rules db inviter_to_member_relationship
  let rule_key := inviter_to_invitee_relationship ++ "_relation"
  match member_rules.lookup rule_key with
  | some v => some v
  | none =>
      apply_fallback_rules inviter_to_member_relationship
        inviter_to_invitee_relationship

/-- The fallback table exactly as the specification lists its 14 pairs
(stated from the spec's words, for comparison with `fallback_patterns`). -/
def spec_fallback_table : List ((String × String) × String) :=
  [ (("parent", "spouse"), "step_parent"),
    (("parent", "sibling"), "aunt_uncle"),
    (("parent", "parent"), "grandparent"),
    (("child", "spouse"), "step_child"),
    (("child", "sibling"), "niece_nephew"),
    (("child", "child"), "grandchild"),
    (("spouse", "child"), "step_child"),
    (("spouse", "parent"), "parent_in_law"),
    (("spouse", "sibling"), "sibling_in_law"),
    (("sibling", "spouse"), "sibling_in_law"),
    (("sibling", "child"), "niece_nephew"),
    (("sibling", "parent"), "aunt_uncle"),
    (("grandparent", "spouse"), "step_grandparent"),
    (("grandchild", "spouse"), "step_grandchild") ]

/-! ## Invitation state machine (`app/models/user_invitation.py`) -/

/-- Model of `UserInvitation.is_expired`: `datetime.utcnow() > self.expires_at`
(strict comparison). -/
def UserInvitation.is_expired (inv : UserInvitation) (now : Nat) : Bool :=
  inv.expires_at < now

/-- Model of `UserInvitation.is_pending`. -/
def UserInvitation.is_pending (inv : UserInvitation) (now : Nat) : Bool :=
  inv.status == .pending && !(inv.is_expired now)

/-- Model of `UserInvitation.accept`: `raise ValueError` is modelled by `.error`. -/
def UserInvitation.accept (inv : UserInvitation) (invitee_user_id : Nat)
    (now : Nat) : Except String UserInvitation :=
  if !(inv.is_pending now) then
    .error "Invitation is not in a state that can be accepted"
  else
    .ok { inv with status := .accepted,
                   invitee_user_id := some invitee_user_id,
                   responded_at := some now }

/-- Model of `UserInvitation.decline`. -/
def UserInvitation.decline (inv : UserInvitation) (now : Nat) :
    Except String UserInvitation :=
  if !(inv.is_pending now) then
    .error "Invitation is not in a state that can be declined"
  else
    .ok { inv with status := .declined, responded_at := some now }

/-- Model of `UserInvitation.cancel`: guarded by `status in [PENDING]` only (no expiry
check). -/
def UserInvitation.cancel (inv : UserInvitation) : Except String UserInvitation :=
  if inv.status != .pending then
    .error "Only pending invitations can be cancelled"
  else
    .ok { inv with status := .cancelled }

/-- Model of `UserInvitation.get_member_ids_to_share`.  `share_all_members` short
circuits to the empty list ("all members"); otherwise a falsy column
(`NULL`/empty text, modelled `none`) gives `[]`, a `JSONDecodeError` gives
`[]`, and any successfully parsed value — list or not — is returned as-is.
The return value therefore has to be `ParsedJson`, not `List Nat`: the code
does not check that the parsed JSON is a list. -/
def UserInvitation.get_member_ids_to_share (inv : UserInvitation) : ParsedJson :=
  if inv.share_all_members then .jlist []
  else
    match inv.specific_member_ids with
    | some (.jlist ids) => .jlist ids
    | some (.jother t) => .jother t
    | some .jerror => .jlist []
    | none => .jlist []

/-- Model of `UserToMember.create_relationship`.  `is_active` is not set by the
classmethod; the column default `True` applies on insert. -/
def UserToMember.create_relationship (user_id member_id : Nat) (relation : String)
    (created_by_user_id : Option Nat := none) (invitation_id : Option Nat := none)
    (is_shareable : Bool := true) (is_manager : Bool := true)
    (relationship_notes : Option String := none) (is_primary : Bool := false) :
    UserToMember :=
  { user_id := user_id, member_id := member_id, relation := relation,
    created_by_user_id := created_by_user_id.getD user_id,
    invitation_id := invitation_id,
    is_shareable := is_shareable, is_manager := is_manager,
    relationship_notes := relationship_notes, is_primary := is_primary,
    is_active := true, is_visible := true }

/-! ## Derivation workflow (`app/services/relationship_calculator.py` and
`app/crud/user_invitation.py`) -/

/-- Model of `RelationshipCalculator._get_members_to_share`.  The base query filters
the inviter's edges on `is_active`, `is_shareable` and `is_manager`.  When
`share_all_members` is false, `get_member_ids_to_share` is consulted: a
falsy result (empty list, or falsy non-list JSON) yields `[]` directly; a
non-empty id list restricts the base query with `member_id.in_(ids)`; a
truthy non-list value is handed to `in_`, which raises — modelled by
`.error`. -/
def members_to_share (db : DB) (invitation : UserInvitation) :
    Except String (List UserToMember) :=
  let base := db.usertomember.filter fun r =>
    r.user_id == invitation.inviter_user_id && r.is_active &&
      r.is_shareable && r.is_manager
  if invitation.share_all_members then .ok base
  else
    match invitation.get_member_ids_to_share with
    | .jlist ids =>
        if ids.isEmpty then .ok []
        else .ok (base.filter fun r => ids.contains r.member_id)
    | .jother true => .error "TypeError: in_ expects a sequence, got a scalar"
    | .jother false => .ok []
    | .jerror => .ok []  -- unreachable: get_member_ids_to_share never returns jerror

/-- One iteration of the member loop of
`RelationshipCalculator.process_invitation_acceptance`.  The duplicate check
queries the session with `autoflush=False` (see
`app/database/connection.py`), so it sees the edge table as it was when the
acceptance started (`orig`), not the edges added earlier in the loop.  When
the derived relationship is `None`, the `logger.warning` call in the source
reads the nonexistent attribute `member_relationship.relationship` and
raises `AttributeError`, which the surrounding `except` swallows with
`continue` — the net effect, skipping the member, is what is modelled. -/
def acceptance_step (db : DB) (invitation : UserInvitation)
    (invitee_user_id : Nat) (orig : List UserToMember)
    (created : List UserToMember) (member_relationship : UserToMember) :
    List UserToMember :=
  match calculate_derived_relationship db.relationship_types
      member_relationship.relation
      (invitation.intended_relationship.getD "family") with
  | some derived =>
      if orig.any (fun r =>
          r.user_id == invitee_user_id &&
            r.member_id == member_relationship.member_id && r.is_active) then
        created  -- logged warning only: relationship already exists
      else
        created ++ [UserToMember.create_relationship invitee_user_id
          member_relationship.member_id derived
          (some invitation.inviter_user_id) (some invitation.id)
          false false
          (some ("Derived from invitation: " ++
            (invitation.intended_relationship.getD "family") ++ " relationship"))
          false]
  | none => created  -- logged (raising, swallowed) warning only

/-- Model of `RelationshipCalculator.process_invitation_acceptance`: returns the
updated session state and the list of created edges.  The final
`db.commit()` is modelled as always succeeding;
`_create_direct_user_relationship` is a logged no-op in the source. -/
def process_invitation_acceptance (db : DB) (invitation : UserInvitation)
    (invitee_user_id : Nat) : Except String (DB × List UserToMember) :=
  if invitation.status != .accepted then
    .error "Invitation must be accepted before processing relationships"
  else
    match members_to_share db invitation with
    | .error e => .error e
    | .ok members =>
        let created := members.foldl
          (acceptance_step db invitation invitee_user_id db.usertomember) []
        .ok ({ db with usertomember := db.usertomember ++ created }, created)

/-- Model of `app.crud.user_invitation.accept_invitation`. -/
def accept_invitation (db : DB) (invitation_token : String)
    (invitee_user_id : Nat) (now : Nat) :
    Except String (DB × UserInvitation × List UserToMember) :=
  match db.invitations.find? (fun i => i.invitation_token == invitation_token) with
  | none => .error "Invitation not found"
  | some invitation =>
    if !(invitation.is_pending now) then
      .error "Invitation is not in a state that can be accepted"
    else
      match db.users.find? (fun u => u.id == invitee_user_id) with
      | none => .error "Invitation email does not match user email"
      | some invitee_user =>
        if pyLower invitee_user.email != pyLower invitation.invitee_email then
          .error "Invitation email does not match user email"
        else
          match invitation.accept invitee_user_id now with
          | .error e => .error e
          | .ok inv' =>
            let db1 := { db with invitations := db.invitations.map fun i =>
              if i.invitation_token == invitation_token then inv' else i }
            match process_invitation_acceptance db1 inv' invitee_user_id with
            | .error e => .error e
            | .ok (db2, created) => .ok (db2, inv', created)

/-! ## Preview (`app/crud/user_invitation.py`, `get_invitation_preview`) -/

/-- The member loop of `get_invitation_preview`: for each candidate edge it
looks the member up and, when found, immediately evaluates
`member_rel.relationship` as an argument to the calculator — an attribute
that does not exist on `UserToMember` (the column is `relation`), so the
first candidate edge whose member row exists raises `AttributeError`.  No
`except` surrounds this loop. -/
def preview_member_loop (members : List Nat) :
    List UserToMember → Except String (List Unit)
  | [] => .ok []
  | mr :: rest =>
      if members.contains mr.member_id then
        .error "AttributeError: UserToMember object has no attribute relationship"
      else preview_member_loop members rest

/-- Model of `get_invitation_preview`: `.ok none` models the `return {}` cases
(unknown token, not pending, inviter user missing).  The candidate query
here repeats the filters of `members_to_share` for the `share_all_members`
branch, but the explicit-id branch omits the `is_manager` filter. -/
def get_invitation_preview (db : DB) (invitation_token : String) (now : Nat) :
    Except String (Option (UserInvitation × List Unit)) :=
  match db.invitations.find? (fun i => i.invitation_token == invitation_token) with
  | none => .ok none
  | some invitation =>
    if !(invitation.is_pending now) then .ok none
    else
      match db.users.find? (fun u => u.id == invitation.inviter_user_id) with
      | none => .ok none
      | some _ =>
        let relsE : Except String (List UserToMember) :=
          if invitation.share_all_members then
            .ok (db.usertomember.filter fun r =>
              r.user_id == invitation.inviter_user_id && r.is_active &&
                r.is_shareable && r.is_manager)
          else
            match invitation.get_member_ids_to_share with
            | .jlist ids =>
                if ids.isEmpty then .ok []
                else .ok (db.usertomember.filter fun r =>
                  r.user_id == invitation.inviter_user_id &&
                    ids.contains r.member_id && r.is_active && r.is_shareable)
            | .jother true => .error "TypeError: in_ expects a sequence, got a scalar"
            | .jother false => .ok []
            | .jerror => .ok []
        match relsE with
        | .error e => .error e
        | .ok member_relationships =>
          match preview_member_loop db.members member_relationships with
          | .error e => .error e
          | .ok entries => .ok (some (invitation, entries))

/-! ## Validation layer -/

/-- Model of `RelationshipCalculator._get_conflicting_relationships`. -/
def get_conflicting_relationships (relationship : String) : List String :=
  if relationship == "parent" then ["child", "sibling", "spouse"]
  else if relationship == "child" then ["parent", "sibling", "spouse"]
  else if relationship == "spouse" then ["parent", "child", "sibling"]
  else if relationship == "sibling" then ["parent", "child", "spouse"]
  else if relationship == "grandparent" then ["grandchild"]
  else if relationship == "grandchild" then ["grandparent"]
  else []

/-- Model of `RelationshipCalculator.validate_relationship_compatibility`.  When an
active edge exists for the pair, the failure message interpolates
`existing.relationship` — an attribute that does not exist on `UserToMember`
(the column is `relation`) — raising `AttributeError`.  When no such edge
exists, building the conflict query evaluates
`UserToMember.relationship.in_(...)` on the class, which likewise raises
`AttributeError`.  The function therefore raises on every input and can
never return its documented `(is_valid, error_message)` pair. -/
def validate_relationship_compatibility (db : DB) (user_id member_id : Nat)
    (new_relationship : String) : Except String (Bool × String) :=
  match db.usertomember.find? (fun r =>
      r.user_id == user_id && r.member_id == member_id && r.is_active) with
  | some _ =>
      .error "AttributeError: UserToMember object has no attribute relationship"
  | none =>
      let _conflicting := get_conflicting_relationships new_relationship
      .error "AttributeError: type object UserToMember has no attribute relationship"

/-! ## Invitation creation schema (`app/schemas/user_invitation.py`) -/

/-- The `validate_member_ids` validator of `UserInvitationBase`
(pydantic `@validator('specific_member_ids')`, not `always=True`): the
argument `none` models the field being absent from the creation input, in
which case pydantic skips the validator entirely and keeps the default
`None`; `some v` models an explicitly supplied value (`some none` a JSON
null, `some (some l)` a list).  `share_all` is the already-validated value
of `share_all_members` (its declared default is `True`). -/
def validate_member_ids (share_all : Bool) (ids : Option (Option (List Nat))) :
    Except String (Option (List Nat)) :=
  match ids with
  | none => .ok none
  | some v =>
    let falsy := (v.getD []).isEmpty
    if !share_all && falsy then
      .error "Must specify member IDs when not sharing all members"
    else if share_all && !falsy then
      .error "Cannot specify member IDs when sharing all members"
    else .ok v

/-! ## Theorems -/

/-- C1: for every registry state and every pair of relationship names,
`calculate_derived_relationship` returns the value of `r1`'s
`calculation_rules` at key `r2 ++ "_relation"` whenever that key is present
(the type-specific entry wins over the fallback table even when both
exist); otherwise it returns the fallback-table entry for `(r1, r2)` from
exactly the 14 hard-coded pairs listed in `spec_fallback_table`; and when
neither yields a result it returns `none` rather than raising. -/
theorem calculate_derived_relationship_spec (db : List RelationshipType)
    (r1 r2 : String) :
    (∀ v, (get_relationship_rules db r1).lookup (r2 ++ "_relation") = some v →
      calculate_derived_relationship db r1 r2 = some v) ∧
    ((get_relationship_rules db r1).lookup (r2 ++ "_relation") = none →
      calculate_derived_relationship db r1 r2 = spec_fallback_table.lookup (r1, r2)) ∧
    ((get_relationship_rules db r1).lookup (r2 ++ "_relation") = none →
      spec_fallback_table.lookup (r1, r2) = none →
      calculate_derived_relationship db r1 r2 = none) := by
  have htab : spec_fallback_table = fallback_patterns := rfl
  refine ⟨fun v hv => ?_, fun hn => ?_, fun hn hf => ?_⟩
  · simp [calculate_derived_relationship, hv]
  · simp [calculate_derived_relationship, hn, apply_fallback_rules, htab]
  · rw [htab] at hf
    simp [calculate_derived_relationship, hn, apply_fallback_rules, hf]

/-- A registry whose `parent` type carries an override rule for the
`(parent, spouse)` composition that contradicts the fallback table. -/
def override_registry : List RelationshipType :=
  [{ name := "parent", display_name := "Parent",
     calculation_rules := [("spouse_relation", "guardian")] }]

/-- Witness for C1: at `override_registry` the type-specific entry wins over
the fallback entry `step_parent`. -/
theorem calculate_derived_relationship_spec_witness :
    calculate_derived_relationship override_registry "parent" "spouse" =
      some "guardian" ∧
    spec_fallback_table.lookup ("parent", "spouse") = some "step_parent" :=
  ⟨(calculate_derived_relationship_spec override_registry "parent" "spouse").1
      "guardian" (by decide), by decide⟩

/-- An edge table holding an active `parent` edge for the pair `(1, 2)`. -/
def conflict_db : DB :=
  { usertomember := [{ user_id := 1, member_id := 2, relation := "parent",
                       created_by_user_id := 1 }] }

/-- C5: `validate_relationship_compatibility` never returns its documented
`(is_valid, error_message)` pair — on every input it raises
`AttributeError`, because both the duplicate-failure message and the
conflict query read the nonexistent attribute `relationship` (the column is
named `relation`); in particular adding `spouse` where an active `parent`
edge exists raises instead of failing with a named reason. -/
theorem validate_relationship_compatibility_raises :
    (∀ (db : DB) (user_id member_id : Nat) (new_relationship : String),
      (validate_relationship_compatibility db user_id member_id
        new_relationship).isOk = false) ∧
    validate_relationship_compatibility conflict_db 1 2 "spouse" =
      .error "AttributeError: UserToMember object has no attribute relationship" := by
  constructor
  · intro db u m r
    unfold validate_relationship_compatibility
    split <;> rfl
  · rfl

/-- C8 counterexample: a creation input with `share_all_members = false`
whose `specific_member_ids` field is absent passes validation (pydantic
skips the validator for an unset field), contradicting the claim that it
must fail. -/
theorem validate_member_ids_absent_counterexample :
    validate_member_ids false none = .ok none := rfl

/-- C8 amended: `share_all_members = true` with an explicitly supplied
non-empty list fails validation, and `share_all_members = false` with an
explicitly supplied null or empty list fails validation; but when the field
is absent from the creation input the validator is skipped (pydantic does
not run non-`always` validators on unset fields), so the input passes for
either sharing flag. -/
theorem validate_member_ids_spec :
    (∀ l : List Nat, l ≠ [] →
      validate_member_ids true (some (some l)) =
        .error "Cannot specify member IDs when sharing all members") ∧
    (validate_member_ids false (some none) =
      .error "Must specify member IDs when not sharing all members") ∧
    (validate_member_ids false (some (some [])) =
      .error "Must specify member IDs when not sharing all members") ∧
    (∀ share_all : Bool, validate_member_ids share_all none = .ok none) := by
  refine ⟨fun l hl => ?_, rfl, rfl, fun share_all => rfl⟩
  cases l with
  | nil => exact absurd rfl hl
  | cons a t => rfl

/-- Witness for C8's amended theorem at the list `[7]`. -/
theorem validate_member_ids_spec_witness :
    validate_member_ids true (some (some [7])) =
      .error "Cannot specify member IDs when sharing all members" :=
  validate_member_ids_spec.1 [7] (by decide)

/-- An invitation whose stored `specific_member_ids` text parses as the JSON
number `5`: parseable, not a list, truthy. -/
def scalar_invitation : UserInvitation :=
  { id := 9, inviter_user_id := 1, invitee_email := "b@example.com",
    invitation_token := "tok-scalar", share_all_members := false,
    specific_member_ids := some (.jother true), expires_at := 100 }

/-- C10 counterexample: for a stored text that parses as a truthy non-list
JSON value, `get_member_ids_to_share` returns the parsed non-list value
instead of the empty list, and the sharing query then raises instead of
deriving zero edges. -/
theorem get_member_ids_to_share_counterexample :
    scalar_invitation.get_member_ids_to_share = .jother true ∧
    members_to_share { usertomember := [] } scalar_invitation =
      .error "TypeError: in_ expects a sequence, got a scalar" :=
  ⟨rfl, rfl⟩

/-- C10 amended: with `share_all_members = false`, a `NULL` column or a text
on which JSON parsing raises yields the empty list, the sharing query then
selects no members and acceptance derives zero edges without error; with
`share_all_members = true` the empty list is returned and the sharing query
returns every active+shareable+manager edge of the inviter.  (A text that
parses as non-list JSON is returned as-is instead; see the
counterexample.) -/
theorem get_member_ids_to_share_spec :
    (∀ inv : UserInvitation, inv.share_all_members = false →
      inv.specific_member_ids = none ∨ inv.specific_member_ids = some .jerror →
      inv.get_member_ids_to_share = .jlist [] ∧
      (∀ db : DB, members_to_share db inv = .ok []) ∧
      (∀ (db : DB) (uid : Nat), inv.status = .accepted →
        process_invitation_acceptance db inv uid =
          .ok ({ db with usertomember := db.usertomember ++ [] }, []))) ∧
    (∀ inv : UserInvitation, inv.share_all_members = true →
      inv.get_member_ids_to_share = .jlist [] ∧
      (∀ db : DB, members_to_share db inv = .ok (db.usertomember.filter fun r =>
        r.user_id == inv.inviter_user_id && r.is_active && r.is_shareable &&
          r.is_manager))) := by
  constructor
  · intro inv hshare hids
    have hget : inv.get_member_ids_to_share = .jlist [] := by
      unfold UserInvitation.get_member_ids_to_share
      rcases hids with h | h <;> simp [hshare, h]
    have hms : ∀ db : DB, members_to_share db inv = .ok [] := by
      intro db
      unfold members_to_share
      simp [hshare, hget]
    refine ⟨hget, hms, ?_⟩
    intro db uid hst
    unfold process_invitation_acceptance
    simp [hst, hms db, List.foldl]
  · intro inv hshare
    constructor
    · unfold UserInvitation.get_member_ids_to_share
      simp [hshare]
    · intro db
      unfold members_to_share
      simp [hshare]

/-- An invitation with an explicit empty sharing scope (`NULL` column),
already accepted. -/
def null_ids_invitation : UserInvitation :=
  { id := 11, inviter_user_id := 1, invitee_email := "b@example.com",
    invitation_token := "tok-null", share_all_members := false,
    specific_member_ids := none, status := .accepted, expires_at := 100 }

/-- The empty session state. -/
def empty_db : DB := { }

/-- Witness for C10's amended theorem: the `NULL`-column invitation yields
the empty id list, selects no members, and derives zero edges without
error. -/
theorem get_member_ids_to_share_spec_witness :
    null_ids_invitation.get_member_ids_to_share = ParsedJson.jlist [] ∧
    members_to_share empty_db null_ids_invitation = .ok [] ∧
    process_invitation_acceptance empty_db null_ids_invitation 2 =
      .ok ({ empty_db with usertomember := empty_db.usertomember ++ [] }, []) := by
  have h := get_member_ids_to_share_spec.1 null_ids_invitation rfl (Or.inl rfl)
  exact ⟨h.1, h.2.1 empty_db, h.2.2 empty_db 2 rfl⟩

/-- Fold invariant of the acceptance loop: every edge it appends is created
through `UserToMember.create_relationship` with the derivation flags — not
manager, not shareable, stamped with the invitation id and the inviter as
creator. -/
theorem acceptance_foldl_flags (db : DB) (inv : UserInvitation) (uid : Nat)
    (orig : List UserToMember) (members : List UserToMember) :
    ∀ created : List UserToMember,
      (∀ e ∈ created, e.is_manager = false ∧ e.is_shareable = false ∧
        e.invitation_id = some inv.id ∧
        e.created_by_user_id = inv.inviter_user_id) →
      ∀ e ∈ members.foldl (acceptance_step db inv uid orig) created,
        e.is_manager = false ∧ e.is_shareable = false ∧
          e.invitation_id = some inv.id ∧
          e.created_by_user_id = inv.inviter_user_id := by
  induction members with
  | nil => intro created h e he; exact h e he
  | cons mr ms ih =>
      intro created h e he
      rw [List.foldl_cons] at he
      refine ih _ ?_ e he
      intro e' he'
      unfold acceptance_step at he'
      split at he'
      · split at he'
        · exact h e' he'
        · rw [List.mem_append] at he'
          rcases he' with he' | he'
          · exact h e' he'
          · rw [List.mem_singleton] at he'
            subst he'
            exact ⟨rfl, rfl, rfl, rfl⟩
      · exact h e' he'

/-- C2: every edge created by invitation-acceptance derivation has
`is_manager = false`, `is_shareable = false`, `invitation_id` equal to the
accepted invitation's id, and `created_by_user_id` equal to the inviter's
id, regardless of the flags on the inviter's own edge to that member. -/
theorem derived_edges_view_only (db : DB) (inv : UserInvitation) (uid : Nat)
    (db' : DB) (created : List UserToMember)
    (h : process_invitation_acceptance db inv uid = .ok (db', created)) :
    ∀ e ∈ created, e.is_manager = false ∧ e.is_shareable = false ∧
      e.invitation_id = some inv.id ∧
      e.created_by_user_id = inv.inviter_user_id := by
  unfold process_invitation_acceptance at h
  split at h
  · exact absurd h (by simp)
  · split at h
    · exact absurd h (by simp)
    · simp only [Except.ok.injEq, Prod.mk.injEq] at h
      obtain ⟨-, hcr⟩ := h
      subst hcr
      exact acceptance_foldl_flags db inv uid db.usertomember _ []
        (fun e he => absurd he (List.not_mem_nil e))

/-- The inviter's `parent` edge to member 10 (active, shareable, manager). -/
def edge_W : UserToMember :=
  { user_id := 1, member_id := 10, relation := "parent", created_by_user_id := 1 }

/-- An already-accepted invitation from user 1 with intended relationship
`spouse`, sharing all members. -/
def accepted_invitation_W : UserInvitation :=
  { id := 5, inviter_user_id := 1, invitee_email := "b@example.com",
    invitation_token := "tok-w", status := .accepted,
    intended_relationship := some "spouse", expires_at := 100 }

/-- Session state for the C2 witness: an empty registry (the fallback table
supplies `parent + spouse = step_parent`) and the inviter's single edge. -/
def db_W : DB := { usertomember := [edge_W] }

/-- The edge the acceptance loop creates for the C2 witness scenario. -/
def created_W : UserToMember :=
  UserToMember.create_relationship 2 10 "step_parent" (some 1) (some 5)
    false false (some "Derived from invitation: spouse relationship") false

/-- The session state after the C2 witness acceptance. -/
def db_W' : DB := { db_W with usertomember := [edge_W] ++ [created_W] }

/-- Witness for C2 at the concrete acceptance scenario. -/
theorem derived_edges_view_only_witness :
    created_W.is_manager = false ∧ created_W.is_shareable = false ∧
      created_W.invitation_id = some accepted_invitation_W.id ∧
      created_W.created_by_user_id = accepted_invitation_W.inviter_user_id :=
  derived_edges_view_only db_W accepted_invitation_W 2 db_W' [created_W]
    (by rfl) created_W (by simp)

/-- Fold invariant of the acceptance loop: a member to which the invitee
already held an active edge when the acceptance started never receives a
created edge — the duplicate check short-circuits it. -/
theorem acceptance_foldl_skips (db : DB) (inv : UserInvitation) (uid : Nat)
    (orig : List UserToMember) (m : Nat)
    (hex : ∃ e ∈ orig, e.user_id = uid ∧ e.member_id = m ∧ e.is_active = true)
    (members : List UserToMember) :
    ∀ created : List UserToMember, (∀ e ∈ created, e.member_id ≠ m) →
      ∀ e ∈ members.foldl (acceptance_step db inv uid orig) created,
        e.member_id ≠ m := by
  induction members with
  | nil => intro created h e he; exact h e he
  | cons mr ms ih =>
      intro created h e he
      rw [List.foldl_cons] at he
      refine ih _ ?_ e he
      intro e' he'
      unfold acceptance_step at he'
      split at he'
      · split at he'
        · exact h e' he'
        · rename_i hnotany
          rw [List.mem_append] at he'
          rcases he' with he' | he'
          · exact h e' he'
          · rw [List.mem_singleton] at he'
            subst he'
            intro heq
            apply hnotany
            rw [List.any_eq_true]
            obtain ⟨e0, he0, h1, h2, h3⟩ := hex
            refine ⟨e0, he0, ?_⟩
            simp only [UserToMember.create_relationship] at heq
            simp [h1, h2, h3, heq]
      · exact h e' he'

/-- C4: a second `accept_invitation` against an already-accepted invitation
fails with the invalid-state error before any mutation, and within one
acceptance a candidate member to which the invitee already holds an active
edge is skipped silently: no created edge targets that member. -/
theorem accept_invitation_idempotency :
    (∀ (db : DB) (token : String) (uid now : Nat) (inv : UserInvitation),
      db.invitations.find? (fun i => i.invitation_token == token) = some inv →
      inv.status = .accepted →
      accept_invitation db token uid now =
        .error "Invitation is not in a state that can be accepted") ∧
    (∀ (db : DB) (inv : UserInvitation) (uid : Nat) (db' : DB)
        (created : List UserToMember) (m : Nat),
      process_invitation_acceptance db inv uid = .ok (db', created) →
      (∃ e ∈ db.usertomember,
        e.user_id = uid ∧ e.member_id = m ∧ e.is_active = true) →
      ∀ e ∈ created, e.member_id ≠ m) := by
  constructor
  · intro db token uid now inv hfind hst
    unfold accept_invitation
    rw [hfind]
    simp [UserInvitation.is_pending, hst]
  · intro db inv uid db' created m h hex
    unfold process_invitation_acceptance at h
    split at h
    · exact absurd h (by simp)
    · split at h
      · exact absurd h (by simp)
      · simp only [Except.ok.injEq, Prod.mk.injEq] at h
        obtain ⟨-, hcr⟩ := h
        subst hcr
        exact acceptance_foldl_skips db inv uid db.usertomember m hex _ []
          (fun e he => absurd he (List.not_mem_nil e))

/-- The inviter's `parent` edge to member 11. -/
def inviter_edge_11 : UserToMember :=
  { user_id := 1, member_id := 11, relation := "parent", created_by_user_id := 1 }

/-- The invitee's pre-existing active edge to member 10. -/
def invitee_edge_10 : UserToMember :=
  { user_id := 2, member_id := 10, relation := "child", created_by_user_id := 2 }

/-- Session state for the C4 witness: the inviter shares members 10 and 11,
the invitee is already connected to member 10, and the already-accepted
invitation is on file. -/
def db_skip : DB :=
  { usertomember := [edge_W, inviter_edge_11, invitee_edge_10],
    invitations := [accepted_invitation_W] }

/-- The single edge the C4 witness acceptance creates (member 11 only;
member 10 is skipped). -/
def created_11 : UserToMember :=
  UserToMember.create_relationship 2 11 "step_parent" (some 1) (some 5)
    false false (some "Derived from invitation: spouse relationship") false

/-- The session state after the C4 witness acceptance. -/
def db_skip' : DB :=
  { db_skip with
    usertomember := [edge_W, inviter_edge_11, invitee_edge_10] ++ [created_11] }

/-- Witness for C4: re-accepting the already-accepted invitation errors,
and the member the invitee was already connected to receives no edge. -/
theorem accept_invitation_idempotency_witness :
    accept_invitation db_skip "tok-w" 2 50 =
      .error "Invitation is not in a state that can be accepted" ∧
    created_11.member_id ≠ 10 :=
  ⟨accept_invitation_idempotency.1 db_skip "tok-w" 2 50 accepted_invitation_W
      (by rfl) rfl,
   accept_invitation_idempotency.2 db_skip accepted_invitation_W 2 db_skip'
      [created_11] 10 (by rfl)
      ⟨invitee_edge_10, by simp [db_skip], rfl, rfl, rfl⟩ created_11 (by simp)⟩

/-- The sharing query succeeds whenever the invitation shares all members
or its stored member-id text is not a truthy non-list JSON value. -/
theorem members_to_share_isOk (db : DB) (inv : UserInvitation)
    (h : inv.share_all_members = true ∨
      inv.specific_member_ids ≠ some (.jother true)) :
    ∃ ms, members_to_share db inv = .ok ms := by
  rcases h with h | h
  · simp only [members_to_share, h, if_true]
    exact ⟨_, rfl⟩
  · cases hs : inv.share_all_members
    · cases hj : inv.specific_member_ids with
      | none =>
          simp [members_to_share, UserInvitation.get_member_ids_to_share,
            hs, hj]
      | some p =>
          cases p with
          | jlist ids =>
              by_cases he : ids.isEmpty
              · simp [members_to_share,
                  UserInvitation.get_member_ids_to_share, hs, hj, he]
              · simp only [members_to_share,
                  UserInvitation.get_member_ids_to_share, hs, hj, he,
                  Bool.false_eq_true, if_false]
                exact ⟨_, rfl⟩
          | jother t =>
              cases t
              · simp [members_to_share,
                  UserInvitation.get_member_ids_to_share, hs, hj]
              · exact absurd hj h
          | jerror =>
              simp [members_to_share, UserInvitation.get_member_ids_to_share,
                hs, hj]
    · simp only [members_to_share, hs, if_true]
      exact ⟨_, rfl⟩

/-- The record produced by a successful `UserInvitation.accept`: the input
invitation with status `accepted`, the invitee id and the response time
set. -/
def accepted_copy (inv : UserInvitation) (uid now : Nat) : UserInvitation :=
  { inv with
    status := .accepted,
    invitee_user_id := some uid,
    responded_at := some now }

/-- A successful `UserInvitation.accept` returns exactly `accepted_copy`. -/
theorem accept_ok_shape (inv : UserInvitation) (uid now : Nat)
    (inv' : UserInvitation) (h : inv.accept uid now = .ok inv') :
    inv' = accepted_copy inv uid now := by
  unfold UserInvitation.accept at h
  split at h
  · exact absurd h (by simp)
  · simpa [accepted_copy] using h.symm

/-- C3 amended: `accept_invitation` fails with `Invitation not found` when
no invitation carries the token; fails with the invalid-state error unless
`status = PENDING` and `now ≤ expires_at` (the boundary instant
`now = expires_at` is still accepted, not expired); fails with the
email-mismatch error when the invitee user is missing or the emails differ
after lowercasing; succeeds — setting `status = ACCEPTED`,
`invitee_user_id` and `responded_at = now` — when the preconditions hold
and the stored member-id text is not a truthy non-list JSON value; every
successful result carries those three fields; and an accepted invitation is
terminal: further accept, decline and cancel all fail with state errors. -/
theorem accept_invitation_spec (db : DB) (token : String) (uid now : Nat) :
    (db.invitations.find? (fun i => i.invitation_token == token) = none →
      accept_invitation db token uid now = .error "Invitation not found") ∧
    (∀ inv : UserInvitation,
      db.invitations.find? (fun i => i.invitation_token == token) = some inv →
      (¬(inv.status = .pending ∧ now ≤ inv.expires_at) →
        accept_invitation db token uid now =
          .error "Invitation is not in a state that can be accepted") ∧
      (inv.status = .pending → now ≤ inv.expires_at →
        (db.users.find? (fun u => u.id == uid) = none →
          accept_invitation db token uid now =
            .error "Invitation email does not match user email") ∧
        (∀ u : User, db.users.find? (fun u => u.id == uid) = some u →
          pyLower u.email ≠ pyLower inv.invitee_email →
          accept_invitation db token uid now =
            .error "Invitation email does not match user email") ∧
        (∀ u : User, db.users.find? (fun u => u.id == uid) = some u →
          pyLower u.email = pyLower inv.invitee_email →
          (inv.share_all_members = true ∨
            inv.specific_member_ids ≠ some (.jother true)) →
          ∃ (db' : DB) (created : List UserToMember),
            accept_invitation db token uid now =
              .ok (db', accepted_copy inv uid now, created)))) ∧
    (∀ (db2 : DB) (inv2 : UserInvitation) (created2 : List UserToMember),
      accept_invitation db token uid now = .ok (db2, inv2, created2) →
      inv2.status = .accepted ∧ inv2.invitee_user_id = some uid ∧
        inv2.responded_at = some now) ∧
    (∀ inv : UserInvitation, inv.status = .accepted →
      (∀ uid' now' : Nat, inv.accept uid' now' =
        .error "Invitation is not in a state that can be accepted") ∧
      (∀ now' : Nat, inv.decline now' =
        .error "Invitation is not in a state that can be declined") ∧
      inv.cancel = .error "Only pending invitations can be cancelled") := by
  refine ⟨?_, ?_, ?_, ?_⟩
  · intro hfind
    unfold accept_invitation
    rw [hfind]
  · intro inv hfind
    constructor
    · intro hnot
      unfold accept_invitation
      rw [hfind]
      by_cases hp : inv.status = .pending
      · have hq : inv.expires_at < now := by
          rcases Nat.lt_or_ge inv.expires_at now with h | h
          · exact h
          · exact absurd ⟨hp, h⟩ hnot
        simp [UserInvitation.is_pending, UserInvitation.is_expired, hq]
      · simp [UserInvitation.is_pending, UserInvitation.is_expired, hp]
    · intro hp hle
      have hpend : inv.is_pending now = true := by
        simp [UserInvitation.is_pending, UserInvitation.is_expired, hp,
          Nat.not_lt.mpr hle]
      refine ⟨?_, ?_, ?_⟩
      · intro huser
        unfold accept_invitation
        rw [hfind, huser]
        simp [hpend]
      · intro u huser hne
        unfold accept_invitation
        rw [hfind, huser]
        simp [hpend, bne_iff_ne, hne]
      · intro u huser heq hok
        have hacc : inv.accept uid now = .ok (accepted_copy inv uid now) := by
          unfold UserInvitation.accept
          simp [hpend, accepted_copy]
        obtain ⟨ms, hms⟩ := members_to_share_isOk
          { db with invitations := db.invitations.map (fun i =>
              if i.invitation_token == token then accepted_copy inv uid now
              else i) }
          (accepted_copy inv uid now)
          (by simpa [accepted_copy] using hok)
        unfold accept_invitation
        rw [hfind, huser]
        simp only [hpend, Bool.not_true, Bool.false_eq_true, if_false, heq,
          bne_self_eq_false, hacc]
        unfold process_invitation_acceptance
        rw [hms]
        exact ⟨_, _, rfl⟩
  · intro db2 inv2 created2 h
    unfold accept_invitation at h
    split at h
    · exact absurd h (by simp)
    · rename_i invitation hfind
      split at h
      · exact absurd h (by simp)
      · split at h
        · exact absurd h (by simp)
        · rename_i u huser
          split at h
          · exact absurd h (by simp)
          · split at h
            · exact absurd h (by simp)
            · rename_i inv' hacc
              dsimp only at h
              split at h
              · exact absurd h (by simp)
              · simp only [Except.ok.injEq, Prod.mk.injEq] at h
                obtain ⟨-, h2, -⟩ := h
                subst h2
                rw [accept_ok_shape _ _ _ _ hacc]
                exact ⟨rfl, rfl, rfl⟩
  · intro inv hst
    refine ⟨?_, ?_, ?_⟩
    · intro uid' now'
      simp [UserInvitation.accept, UserInvitation.is_pending, hst]
    · intro now'
      simp [UserInvitation.decline, UserInvitation.is_pending, hst]
    · simp [UserInvitation.cancel, hst]

/-- The invitee user of the witness scenarios. -/
def user_2 : User := { id := 2, email := "b@example.com" }

/-- A pending invitation whose stored invitee email differs from the user's
email only by case. -/
def pending_invitation_W : UserInvitation :=
  { id := 6, inviter_user_id := 1, invitee_email := "B@Example.com",
    invitation_token := "tok-p", status := .pending,
    intended_relationship := some "spouse", expires_at := 100 }

/-- Session state for the C3 witness. -/
def db_P : DB :=
  { users := [user_2], usertomember := [edge_W],
    invitations := [pending_invitation_W] }

/-- Witness for C3's amended theorem: a pending, unexpired invitation with a
case-insensitively matching email is accepted with the three fields set, and
an already-accepted invitation cannot be cancelled. -/
theorem accept_invitation_spec_witness :
    (∃ (db' : DB) (created : List UserToMember),
      accept_invitation db_P "tok-p" 2 50 =
        .ok (db', accepted_copy pending_invitation_W 2 50, created)) ∧
    accepted_invitation_W.cancel =
      .error "Only pending invitations can be cancelled" :=
  ⟨(((accept_invitation_spec db_P "tok-p" 2 50).2.1 pending_invitation_W
      (by rfl)).2 rfl (by decide)).2.2 user_2 (by rfl) (by decide)
      (Or.inl rfl),
   ((accept_invitation_spec db_P "tok-p" 2 50).2.2.2 accepted_invitation_W
      rfl).2.2⟩

/-- A pending invitation expiring exactly at time 100. -/
def boundary_invitation : UserInvitation :=
  { id := 7, inviter_user_id := 1, invitee_email := "b@example.com",
    invitation_token := "tok-bd", status := .pending,
    intended_relationship := some "spouse", expires_at := 100 }

/-- Session state for the C3 counterexample. -/
def db_B : DB := { users := [user_2], invitations := [boundary_invitation] }

/-- The session state after accepting `boundary_invitation` at its expiry
instant. -/
def db_B' : DB :=
  { users := [user_2],
    invitations := [accepted_copy boundary_invitation 2 100] }

/-- C3 counterexample: at `now = expires_at` (here both 100) the claim
requires an invalid-state failure because `now < expires_at` does not hold,
but `accept_invitation` succeeds: `is_expired` uses a strict comparison. -/
theorem accept_invitation_boundary_counterexample :
    accept_invitation db_B "tok-bd" 2 100 =
      .ok (db_B', accepted_copy boundary_invitation 2 100, []) := by rfl

/-- A pending invitation expiring exactly at time 100, for the model-level
boundary analysis. -/
def boundary_invitation_M : UserInvitation :=
  { id := 8, inviter_user_id := 1, invitee_email := "b@example.com",
    invitation_token := "tok-bm", status := .pending, expires_at := 100 }

/-- C7 counterexample: at the instant `now = expires_at` the invitation is
not treated as expired — `is_expired` is false, `is_pending` is true, and
the model-level accept succeeds — contradicting the claim that it is
expired and that accept fails. -/
theorem is_pending_boundary_counterexample :
    boundary_invitation_M.is_expired 100 = false ∧
    boundary_invitation_M.is_pending 100 = true ∧
    boundary_invitation_M.accept 2 100 =
      .ok (accepted_copy boundary_invitation_M 2 100) :=
  ⟨rfl, rfl, rfl⟩

/-- C7 amended: `is_expired` is the strict comparison `expires_at < now`,
so an invitation whose `expires_at` equals the current time is still
pending (when its status is PENDING) and accept succeeds at that instant;
it is treated as expired only strictly after `expires_at`. -/
theorem is_pending_boundary_spec (inv : UserInvitation) (now : Nat) :
    (inv.is_expired now = true ↔ inv.expires_at < now) ∧
    (inv.is_pending now = true ↔
      inv.status = .pending ∧ now ≤ inv.expires_at) ∧
    (inv.status = .pending → ∀ uid : Nat,
      inv.accept uid inv.expires_at =
        .ok (accepted_copy inv uid inv.expires_at)) := by
  refine ⟨?_, ?_, fun hp uid => ?_⟩
  · simp [UserInvitation.is_expired]
  · simp [UserInvitation.is_pending, UserInvitation.is_expired, Nat.not_lt,
      beq_iff_eq, Bool.and_eq_true, Bool.not_eq_true',
      decide_eq_false_iff_not]
  · simp [UserInvitation.accept, UserInvitation.is_pending,
      UserInvitation.is_expired, hp, lt_self_iff_false, accepted_copy]

/-- Witness for C7's amended theorem at the concrete boundary invitation. -/
theorem is_pending_boundary_spec_witness :
    boundary_invitation_M.accept 3 boundary_invitation_M.expires_at =
      .ok (accepted_copy boundary_invitation_M 3
        boundary_invitation_M.expires_at) :=
  (is_pending_boundary_spec boundary_invitation_M 0).2.2 rfl 3

/-- The inviter user. -/
def user_1 : User := { id := 1, email := "a@example.com" }

/-- A pending share-all invitation from user 1, for the preview scenario. -/
def preview_invitation_W : UserInvitation :=
  { id := 12, inviter_user_id := 1, invitee_email := "b@example.com",
    invitation_token := "tok-v", status := .pending,
    intended_relationship := some "spouse", expires_at := 100 }

/-- Session state for the preview scenario: member 10 exists, the inviter
holds an active+shareable+manager edge to it, and the invitation is
pending. -/
def db_V : DB :=
  { users := [user_1, user_2], members := [10],
    usertomember := [edge_W], invitations := [preview_invitation_W] }

/-- The edge acceptance creates in the preview scenario. -/
def created_V : UserToMember :=
  UserToMember.create_relationship 2 10 "step_parent" (some 1) (some 12)
    false false (some "Derived from invitation: spouse relationship") false

/-- The session state after accepting the preview scenario's invitation. -/
def db_V' : DB :=
  { users := [user_1, user_2], members := [10],
    usertomember := [edge_W] ++ [created_V],
    invitations := [accepted_copy preview_invitation_W 2 50] }

/-- C6 (code bug): on the same state, the acceptance-side candidate set is
exactly the inviter's active+shareable+manager edge and acceptance
succeeds, but `get_invitation_preview` raises `AttributeError` instead of
re-running the computation read-only: its member loop reads
`member_rel.relationship`, an attribute that does not exist on the model
(the column is `relation`); its explicit-id branch also omits the
`is_manager` filter that the acceptance path applies. -/
theorem get_invitation_preview_raises :
    members_to_share db_V preview_invitation_W = .ok [edge_W] ∧
    accept_invitation db_V "tok-v" 2 50 =
      .ok (db_V', accepted_copy preview_invitation_W 2 50, [created_V]) ∧
    get_invitation_preview db_V "tok-v" 50 =
      .error "AttributeError: UserToMember object has no attribute relationship" :=
  ⟨rfl, rfl, rfl⟩

/-- The seeding fold only appends rows to the registry. -/
theorem seed_foldl_append (tds : List RelationshipType) :
    ∀ acc : List RelationshipType × List RelationshipType,
      ∃ suf, (tds.foldl seed_step acc).1 = acc.1 ++ suf := by
  induction tds with
  | nil => intro acc; exact ⟨[], (List.append_nil _).symm⟩
  | cons td ts ih =>
      intro acc
      rw [List.foldl_cons]
      obtain ⟨suf, hsuf⟩ := ih (seed_step acc td)
      cases hfind : get_relationship_type_by_name acc.1 td.name with
      | some rt =>
          refine ⟨suf, ?_⟩
          rw [hsuf]
          simp only [seed_step, hfind]
      | none =>
          refine ⟨[td] ++ suf, ?_⟩
          rw [hsuf]
          simp only [seed_step, hfind]
          rw [List.append_assoc]

/-- A row found in the registry is still found after rows are appended. -/
theorem get_by_name_append (db ext : List RelationshipType) (n : String)
    (h : (get_relationship_type_by_name db n).isSome = true) :
    (get_relationship_type_by_name (db ++ ext) n).isSome = true := by
  unfold get_relationship_type_by_name at *
  rw [List.find?_append]
  cases hf : db.find?
      (fun rt => rt.name == pyStrip (pyLower n) && rt.is_active) with
  | none => rw [hf] at h; exact absurd h (by simp)
  | some rt => rfl

/-- After one seeding run every well-formed seed row (name already
lower-case and trimmed, active) is found in the resulting registry. -/
theorem seed_foldl_covers (tds : List RelationshipType)
    (hok : ∀ td ∈ tds,
      td.name = pyStrip (pyLower td.name) ∧ td.is_active = true) :
    ∀ acc : List RelationshipType × List RelationshipType, ∀ td ∈ tds,
      (get_relationship_type_by_name
        (tds.foldl seed_step acc).1 td.name).isSome = true := by
  induction tds with
  | nil => intro acc td h; cases h
  | cons td0 ts ih =>
      intro acc td hmem
      rw [List.foldl_cons]
      rcases List.mem_cons.mp hmem with rfl | hmem'
      · have h0 : (get_relationship_type_by_name
            (seed_step acc td).1 td.name).isSome = true := by
          cases hfind : get_relationship_type_by_name acc.1 td.name with
          | some rt =>
              simp only [seed_step, hfind]
              rfl
          | none =>
              simp only [seed_step, hfind]
              unfold get_relationship_type_by_name
              rw [List.find?_append]
              unfold get_relationship_type_by_name at hfind
              rw [hfind]
              obtain ⟨hn, ha⟩ := hok td (List.mem_cons_self td ts)
              simp [List.find?, ← hn, ha]
        obtain ⟨suf, hsuf⟩ := seed_foldl_append ts (seed_step acc td)
        rw [hsuf]
        exact get_by_name_append _ _ _ h0
      · exact ih (fun t ht => hok t (List.mem_cons_of_mem _ ht))
          (seed_step acc td0) td hmem'

/-- A seeding run over rows that are all already present changes nothing. -/
theorem seed_foldl_id (tds : List RelationshipType) :
    ∀ acc : List RelationshipType × List RelationshipType,
      (∀ td ∈ tds,
        (get_relationship_type_by_name acc.1 td.name).isSome = true) →
      tds.foldl seed_step acc = acc := by
  induction tds with
  | nil => intro acc _; rfl
  | cons td0 ts ih =>
      intro acc h
      rw [List.foldl_cons]
      have h0 := h td0 (List.mem_cons_self td0 ts)
      have hstep : seed_step acc td0 = acc := by
        unfold seed_step
        cases hfind : get_relationship_type_by_name acc.1 td0.name with
        | none => rw [hfind] at h0; exact absurd h0 (by simp)
        | some rt => rfl
      rw [hstep]
      exact ih acc (fun td ht => h td (List.mem_cons_of_mem _ ht))

/-- Every row the seeding fold creates was absent — in the exact-name,
active-rows-only sense the code uses — from the starting registry. -/
theorem seed_foldl_created_absent (db : List RelationshipType)
    (tds : List RelationshipType) :
    ∀ acc : List RelationshipType × List RelationshipType,
      (∃ pre, acc.1 = db ++ pre) →
      (∀ td ∈ acc.2, ∀ t ∈ db,
        ¬(t.is_active = true ∧ t.name = pyStrip (pyLower td.name))) →
      ∀ td ∈ (tds.foldl seed_step acc).2, ∀ t ∈ db,
        ¬(t.is_active = true ∧ t.name = pyStrip (pyLower td.name)) := by
  induction tds with
  | nil => intro acc _ h; exact h
  | cons td0 ts ih =>
      intro acc hpre hinv
      rw [List.foldl_cons]
      obtain ⟨pre, hp⟩ := hpre
      refine ih (seed_step acc td0) ?_ ?_
      · cases hfind : get_relationship_type_by_name acc.1 td0.name with
        | some rt => exact ⟨pre, by simp only [seed_step, hfind]; exact hp⟩
        | none =>
            refine ⟨pre ++ [td0], ?_⟩
            simp only [seed_step, hfind]
            rw [hp, List.append_assoc]
      · intro td1 h1 t ht
        cases hfind : get_relationship_type_by_name acc.1 td0.name with
        | some rt =>
            simp only [seed_step, hfind] at h1
            exact hinv td1 h1 t ht
        | none =>
            simp only [seed_step, hfind] at h1
            rw [List.mem_append] at h1
            rcases h1 with h1 | h1
            · exact hinv td1 h1 t ht
            · rw [List.mem_singleton] at h1
              subst h1
              rintro ⟨hact, hname⟩
              unfold get_relationship_type_by_name at hfind
              have hnone := List.find?_eq_none.mp hfind t
                (by rw [hp]; exact List.mem_append_left _ ht)
              exact hnone (by simp [hname, hact])

set_option maxHeartbeats 1600000 in
/-- C9 amended: `seed_default_relationship_types` inserts a canonical
default only when no active type whose stored name exactly equals the
canonical (lower-case) name is present — the probe name is lowercased and
trimmed but the stored name is compared verbatim and inactive rows are
ignored; running it twice creates nothing on the second run for every
starting registry; and on the empty registry it creates exactly the 12
canonical types. -/
theorem seed_default_relationship_types_spec :
    (∀ (db : List RelationshipType) (td : RelationshipType),
      td ∈ (seed_default_relationship_types db).2 →
      ∀ t ∈ db, ¬(t.is_active = true ∧ t.name = pyStrip (pyLower td.name))) ∧
    (∀ db : List RelationshipType,
      (seed_default_relationship_types
        (seed_default_relationship_types db).1).2 = []) ∧
    ((seed_default_relationship_types []).2.map RelationshipType.name =
      ["parent", "child", "spouse", "sibling", "grandparent", "grandchild",
       "step_parent", "step_child", "aunt_uncle", "niece_nephew", "guardian",
       "ward"]) := by
  have hok : ∀ td ∈ get_default_relationship_types,
      td.name = pyStrip (pyLower td.name) ∧ td.is_active = true := by decide
  refine ⟨?_, ?_, ?_⟩
  · intro db td hmem t ht
    exact seed_foldl_created_absent db get_default_relationship_types (db, [])
      ⟨[], (List.append_nil db).symm⟩ (fun td1 h1 => absurd h1 (List.not_mem_nil td1))
      td hmem t ht
  · intro db
    have hcov := seed_foldl_covers get_default_relationship_types hok (db, [])
    have hid := seed_foldl_id get_default_relationship_types
      ((seed_default_relationship_types db).1, [])
      (fun td ht => hcov td ht)
    show (get_default_relationship_types.foldl seed_step
      ((seed_default_relationship_types db).1, [])).2 = []
    rw [hid]
  · rfl

/-- A registry already holding a type whose name matches canonical `parent`
up to case. -/
def mixed_case_registry : List RelationshipType :=
  [{ name := "Parent", display_name := "Parent" }]

/-- C9 counterexample: with an active type named `Parent` present — the
same name as canonical `parent` under case-insensitive whitespace-trimmed
comparison — seeding still inserts a fresh `parent` row (and the other 11),
because only the probe name is normalised while the stored name is compared
verbatim. -/
theorem seed_case_counterexample :
    ((seed_default_relationship_types mixed_case_registry).2.map
      RelationshipType.name) =
      ["parent", "child", "spouse", "sibling", "grandparent", "grandchild",
       "step_parent", "step_child", "aunt_uncle", "niece_nephew", "guardian",
       "ward"] ∧
    mixed_case_registry.map (fun t => pyStrip (pyLower t.name)) = ["parent"] ∧
    mixed_case_registry.map RelationshipType.is_active = [true] :=
  ⟨rfl, rfl, rfl⟩

/-- Witness for C9's amended theorem: a second seeding run on top of the
mixed-case registry creates nothing. -/
theorem seed_default_relationship_types_spec_witness :
    (seed_default_relationship_types
      (seed_default_relationship_types mixed_case_registry).1).2 = [] :=
  seed_default_relationship_types_spec.2.1 mixed_case_registry

end MiniLively
